import Mathlib

/-!
# Verification of the Student Performance Prediction core

Shallow embedding of the ML core of the repository
(`backend/app/ml/predictor.py`, `backend/app/ml/train.py`, and the
threshold plumbing of `backend/app/main.py`).

Conventions of the embedding:
* Python floats carried through arithmetic are modelled as `ℚ` wherever the
  source computes with field operations and comparisons only; the
  transcendental parts (`np.exp`, `np.log` inside the sigmoid/logit) are
  modelled over `ℝ`.
* Fallible code (`raise`) is modelled with `Except`.
* The opaque scikit-learn estimator objects are modelled through an
  oracle structure holding their numeric outputs, plus the spec's
  explicit logistic-inference abstraction for the deployed model.
-/

namespace StudentPerf

/-! ## Feature specification (`predictor.py` BOUNDS, `train.py` FEATURES) -/

/-- `FEATURES` from `train.py`: canonical ordered feature list. -/
def FEATURES : List String := ["attendance", "marks", "internal_score"]

/-- `BOUNDS` from `predictor.py`: per-feature (min, max) bounds. -/
def BOUNDS (name : String) : ℚ × ℚ :=
  match name with
  | "attendance" => (0, 100)
  | "marks" => (0, 100)
  | "internal_score" => (0, 100)
  | "final_exam_score" => (0, 100)
  | _ => (0, 100)

/-- A feature value inside its bounds (all bounds are `[0, 100]`). -/
def inBounds (q : ℚ) : Prop := 0 ≤ q ∧ q ≤ 100

instance : DecidablePred inBounds := fun _ => instDecidableAnd

/-- `Predictor._validate_range`: `None` is rejected, then the bounds check.
(The "must be a number" branch is unreachable here because inputs arrive
already coerced to numbers by the schema layer.) -/
def validateRange (name : String) (value : Option ℚ) : Except String ℚ :=
  match value with
  | none => .error (name ++ " is required")
  | some q =>
      if (BOUNDS name).1 ≤ q ∧ q ≤ (BOUNDS name).2 then .ok q
      else .error (name ++ " must be between 0 and 100, received " ++ toString q)

/-! ## Metadata as seen by the predictor (lenient JSON view) -/

/-- A JSON value observed at a metadata key, as far as the predictor's
`isinstance(x, (float, int))` checks can distinguish them: a numeric value
(Python `bool` coerces through `float` as well) or anything else. -/
inductive MetaVal where
  | num (q : ℚ)
  | other
deriving DecidableEq

/-- Contents of `metadata["scaler"]`; each vector may be missing. -/
structure ScalerMeta where
  mean : Option (List ℚ)
  scale : Option (List ℚ)
deriving DecidableEq

/-- The metadata document as read by `Predictor`: every key may be absent
(`metadata.get` with a default). -/
structure Metadata where
  user_threshold : Option MetaVal
  recommended_threshold : Option MetaVal
  coefficients : Option (List (String × ℚ))
  permutation_importance : Option (List (String × ℚ))
  scaler : Option ScalerMeta
deriving DecidableEq

/-- The empty metadata document (missing metadata file degrades to `{}`). -/
def Metadata.empty : Metadata := ⟨none, none, none, none, none⟩

/-! ## Threshold resolution (`Predictor._resolve_threshold`,
`main._resolve_threshold_with_source`) -/

/-- State of the `PRED_THRESHOLD` environment variable as the code observes
it: unset, set to the empty string (falsy, skipped), set to a string that
`float()` rejects, or set to a numeric string. -/
inductive EnvThreshold where
  | unset
  | empty
  | nonNumeric (s : String)
  | numeric (q : ℚ)
deriving DecidableEq

/-- Fall-through of `_resolve_threshold` after the environment check:
`user_threshold`, then `recommended_threshold`, then the hardcoded 0.6. -/
def resolveFromMetadata (md : Metadata) : ℚ :=
  match md.user_threshold with
  | some (.num q) =>
      if 0 < q ∧ q < 1 then q
      else
        match md.recommended_threshold with
        | some (.num r) => if 0 < r ∧ r < 1 then r else 0.6
        | _ => 0.6
  | _ =>
      match md.recommended_threshold with
      | some (.num r) => if 0 < r ∧ r < 1 then r else 0.6
      | _ => 0.6

/-- `Predictor._resolve_threshold`: environment override first (skipped when
unset, empty, unparsable, or out of the open interval `(0,1)`), then the
metadata fall-through. Malformed values only log a warning. -/
def resolveThreshold (env : EnvThreshold) (md : Metadata) : ℚ :=
  match env with
  | .numeric q => if 0 < q ∧ q < 1 then q else resolveFromMetadata md
  | _ => resolveFromMetadata md

/-- `main._resolve_threshold_with_source`: same precedence, also naming the
winning source; the metadata document is `none` when the file is missing or
unreadable. -/
def resolveThresholdWithSource (env : EnvThreshold) (md : Option Metadata) :
    ℚ × String :=
  match env with
  | .numeric q =>
      if 0 < q ∧ q < 1 then (q, "env")
      else resolveWithSourceFromMetadata md
  | _ => resolveWithSourceFromMetadata md
where
  resolveWithSourceFromMetadata : Option Metadata → ℚ × String
  | some m =>
      match m.user_threshold with
      | some (.num u) =>
          if 0 < u ∧ u < 1 then (u, "metadata:user")
          else
            match m.recommended_threshold with
            | some (.num r) =>
                if 0 < r ∧ r < 1 then (r, "metadata:recommended")
                else (0.6, "default")
            | _ => (0.6, "default")
      | _ =>
          match m.recommended_threshold with
          | some (.num r) =>
              if 0 < r ∧ r < 1 then (r, "metadata:recommended")
              else (0.6, "default")
          | _ => (0.6, "default")
  | none => (0.6, "default")

/-- Specification-side view: the value a valid environment override
contributes (a numeric value strictly inside `(0,1)`), if any. -/
def envOverride : EnvThreshold → Option ℚ
  | .numeric q => if 0 < q ∧ q < 1 then some q else none
  | _ => none

/-- Specification-side view: the value a valid metadata override at one key
contributes, if any. -/
def metaOverride : Option MetaVal → Option ℚ
  | some (.num q) => if 0 < q ∧ q < 1 then some q else none
  | _ => none

/-! ## Suspicion detection (`Predictor._collect_suspicion_markers`) -/

/-- The three validated model features. -/
structure Features where
  attendance : ℚ
  marks : ℚ
  internal_score : ℚ
deriving DecidableEq

/-- `Predictor._collect_suspicion_markers`: the three fixed heuristics, in
source order, each contributing one warning string. -/
def collectSuspicionMarkers (features : Features) (final_exam_score : Option ℚ) :
    List String :=
  (if features.marks = 0 ∧ 60 ≤ features.internal_score then
    ["Marks are zero while internal score is high; please verify scores."]
  else []) ++
  (if features.attendance < 40 ∧ 80 ≤ features.marks then
    ["Attendance is very low compared to high marks. Double-check attendance entry."]
  else []) ++
  (match final_exam_score with
   | some fe =>
      if fe < 20 ∧ 70 ≤ features.marks then
        ["Final exam score is low despite high overall marks; confirm final exam data."]
      else []
   | none => [])

/-! ## The deployed model

`Predictor.predict` calls `self.model.predict_proba`, an opaque fitted
scikit-learn artifact. -/

/-- Modelled from the spec: the deployed calibrated classifier is abstracted
as linear-then-sigmoid inference,
`sigmoid(intercept + Σ coef_i * (x_i − mean_i)/scale_i)` (spec §9); the
fitted parameters themselves are opaque outputs of training. -/
structure FittedModel where
  mean : List ℚ
  scale : List ℚ
  coef : List ℚ
  intercept : ℚ
deriving DecidableEq

/-- `1 / (1 + exp(-z))`, exactly as `Predictor._sigmoid` computes. -/
noncomputable def sigmoid (z : ℝ) : ℝ := 1 / (1 + Real.exp (-z))

/-- The linear score of the abstracted model on a raw feature vector. -/
def FittedModel.linScore (m : FittedModel) (raw : List ℚ) : ℚ :=
  m.intercept +
    ((List.range 3).map
      (fun i => m.coef.getD i 0 * (raw.getD i 0 - m.mean.getD i 0) / m.scale.getD i 1)).sum

/-- `model.predict_proba(x)[0][1]`: the calibrated positive-class
probability. -/
noncomputable def FittedModel.predictProba (m : FittedModel) (raw : List ℚ) : ℝ :=
  sigmoid ((m.linScore raw : ℚ) : ℝ)

theorem sigmoid_pos (z : ℝ) : 0 < sigmoid z := by
  have h := Real.exp_pos (-z)
  have hd : 0 < 1 + Real.exp (-z) := by linarith
  exact div_pos one_pos hd

theorem sigmoid_lt_one (z : ℝ) : sigmoid z < 1 := by
  have h := Real.exp_pos (-z)
  have hd : 0 < 1 + Real.exp (-z) := by linarith
  rw [sigmoid, div_lt_one hd]
  linarith

/-! ## Explanation helpers (`_standardize`, `_build_explanation`) -/

/-- The scale vector used by `_standardize` after the
`np.where(scale == 0, 1.0, scale)` guard; the `scaler` entry and its
`scale` vector default to `{}` / `[1.0, 1.0, 1.0]` when missing. -/
def effectiveScaleList (md : Metadata) : List ℚ :=
  (((md.scaler.bind ScalerMeta.scale).getD [1, 1, 1]).map
    (fun s => if s = 0 then 1 else s))

/-- Numpy broadcasting of an elementwise binary operation over two 1-D
arrays: defined when the lengths match or either length is 1 (in which case
the singleton stretches along the other operand); any other length pair
raises a broadcast `ValueError`. -/
def npBroadcast (f : ℚ → ℚ → ℚ) (a b : List ℚ) : Except String (List ℚ) :=
  if a.length = b.length then .ok (List.zipWith f a b)
  else if a.length = 1 then .ok (b.map (fun y => f (a.getD 0 0) y))
  else if b.length = 1 then .ok (a.map (fun x => f x (b.getD 0 0)))
  else .error "operands could not be broadcast together"

/-- `Predictor._standardize` with numpy's array semantics:
`(raw_features - mean) / scale` elementwise, raising a broadcast
`ValueError` when a stored vector's length is incompatible with the
3-element raw feature vector. -/
def standardize (md : Metadata) (raw : List ℚ) : Except String (List ℚ) := do
  let mean := (md.scaler.bind ScalerMeta.mean).getD [0, 0, 0]
  let scale := effectiveScaleList md
  let centered ← npBroadcast (fun x mu => x - mu) raw mean
  npBroadcast (fun d s => d / s) centered scale

/-- The total approximation of `standardize` by truncating `zipWith`s: on
a metadata document whose stored vectors have length 3 (the shape every
training run writes) it computes exactly the vector `standardize` returns
(`standardize_agrees`); on shapes where `_standardize` raises, it instead
truncates. `Predictor.predict` below is embedded over this total variant,
so it still returns a response there; `Predictor.predictNp` threads the
faithful `standardize` and models the abort. -/
def standardizeTrunc (md : Metadata) (raw : List ℚ) : List ℚ :=
  let mean := (md.scaler.bind ScalerMeta.mean).getD [0, 0, 0]
  let scale := effectiveScaleList md
  List.zipWith (fun d s => d / s) (List.zipWith (fun x mu => x - mu) raw mean) scale

/-- `coefficients.get(feature, 0.0)` on the lenient metadata view. -/
def getCoef (md : Metadata) (feature : String) : ℚ :=
  ((md.coefficients.getD []).lookup feature).getD 0

/-- One ranked entry of `top_reasons`. -/
structure ReasonEntry where
  feature : String
  effect : String
  contribution : ℚ
deriving DecidableEq

/-- Per-feature contribution from a standardized vector: standardized value
times stored coefficient. -/
def contributionsFrom (md : Metadata) (standardized : List ℚ) :
    List (String × ℚ) :=
  FEATURES.enum.map (fun p => (p.2, standardized.getD p.1 0 * getCoef md p.2))

/-- Per-feature contribution of the raw vector (total variant). -/
def contributions (md : Metadata) (raw : List ℚ) : List (String × ℚ) :=
  contributionsFrom md (standardizeTrunc md raw)

/-- `Predictor._derive_top_reasons`: rank by absolute contribution
descending, take the top 3, tag by sign. -/
def deriveTopReasons (contribs : List (String × ℚ)) : List ReasonEntry :=
  let ranked := List.insertionSort (fun a b => |b.2| ≤ |a.2|) contribs
  (ranked.take 3).map (fun p =>
    ⟨p.1, if 0 < p.2 then "increase" else if p.2 < 0 then "decrease" else "neutral", p.2⟩)

/-- The `explanation` block of a prediction response. -/
structure Explanation where
  top_reasons : List ReasonEntry
  feature_importances : List (String × ℚ)
  coefficients : List (String × ℚ)
deriving DecidableEq

/-- The explanation block computed from a standardized vector
(`Predictor._build_explanation` after `_standardize`). The
`permutation_importance or {...}` fallback also fires on an empty stored
map (falsy in Python). -/
def explanationFrom (md : Metadata) (standardized : List ℚ) : Explanation :=
  let contribs := contributionsFrom md standardized
  let importances :=
    match md.permutation_importance with
    | some l => if l = [] then contribs.map (fun p => (p.1, |p.2|)) else l
    | none => contribs.map (fun p => (p.1, |p.2|))
  ⟨deriveTopReasons contribs, importances, md.coefficients.getD []⟩

/-- `Predictor._build_explanation` over the total standardization. -/
def buildExplanation (md : Metadata) (raw : List ℚ) : Explanation :=
  explanationFrom md (standardizeTrunc md raw)

/-- `Predictor._build_explanation` over the faithful standardization: a
broadcast `ValueError` inside `_standardize` propagates out. -/
def buildExplanationNp (md : Metadata) (raw : List ℚ) :
    Except String Explanation :=
  (standardize md raw).map (explanationFrom md)

/-- The stored scaler vectors (when present) broadcast against the
3-element feature vector: length 3 or 1. Every metadata document written by
training satisfies this with length exactly 3. -/
def scalerShapesOk (md : Metadata) : Prop :=
  (∀ l ∈ md.scaler.bind ScalerMeta.mean, l.length = 3 ∨ l.length = 1) ∧
    ∀ l ∈ md.scaler.bind ScalerMeta.scale, l.length = 3 ∨ l.length = 1

instance : DecidablePred scalerShapesOk := fun _ =>
  inferInstanceAs (Decidable (_ ∧ _))

/-! ## Feedback generation (`_logit`, `_feature_tip`, `_compute_feedback`) -/

/-- `Predictor._logit`: clamp `p` into `[1e-6, 1 - 1e-6]`, then `log(p/(1-p))`. -/
noncomputable def logit (p : ℝ) : ℝ :=
  let eps : ℝ := 1e-6
  let p' := min (max p eps) (1 - eps)
  Real.log (p' / (1 - p'))

/-- Per-feature suggestion caps (`max_increase` in `_compute_feedback`). -/
def maxIncrease : String → ℚ
  | "attendance" => 10
  | "marks" => 15
  | "internal_score" => 10
  | _ => 0

/-- `Predictor._feature_tip`. -/
def featureTip : String → String
  | "marks" => "Practice previous year papers, focus on weak chapters, get 1-on-1 tutoring."
  | "attendance" => "Attend more lectures and labs, attend office hours, increase attendance by up to +10."
  | "internal_score" => "Submit all assignments, improve assignment quality, discuss rubrics with teacher, up to +10 points."
  | _ => "Focus improvement efforts on this area."

/-- Suggestion priority (the source uses the strings "high"/"medium"/"low"). -/
inductive Priority where
  | high
  | medium
  | low
deriving DecidableEq

/-- `priority_rank` in `_compute_feedback`. -/
def priorityRank : Priority → ℕ
  | .high => 0
  | .medium => 1
  | .low => 2

/-- One improvement suggestion. `delta_value` is the numeric increase that
the `suggested_change` display string carries. The display string itself
(integer-rounded rendering) is presentation only and not modelled. -/
structure Suggestion where
  feature : String
  current_value : ℚ
  delta_value : ℚ
  estimated_probability_gain : ℝ
  new_probability_estimate : ℝ
  priority : Priority
  explanation : String

/-- The sort key order used by `_compute_feedback`:
`(priority_rank, -gain)` ascending lexicographically, i.e. higher priority
first and, within one priority, larger gain first. -/
def suggLE (a b : Suggestion) : Prop :=
  priorityRank a.priority < priorityRank b.priority ∨
    (priorityRank a.priority = priorityRank b.priority ∧
      b.estimated_probability_gain ≤ a.estimated_probability_gain)

noncomputable instance : DecidableRel suggLE := fun _ _ => Classical.propDecidable _

instance : IsTotal Suggestion suggLE where
  total a b := by
    rcases lt_trichotomy (priorityRank a.priority) (priorityRank b.priority) with h | h | h
    · exact Or.inl (Or.inl h)
    · rcases le_total b.estimated_probability_gain a.estimated_probability_gain with hg | hg
      · exact Or.inl (Or.inr ⟨h, hg⟩)
      · exact Or.inr (Or.inr ⟨h.symm, hg⟩)
    · exact Or.inr (Or.inl h)

instance : IsTrans Suggestion suggLE where
  trans a b c hab hbc := by
    rcases hab with h1 | ⟨h1, g1⟩
    · rcases hbc with h2 | ⟨h2, _⟩
      · exact Or.inl (h1.trans h2)
      · exact Or.inl (h2 ▸ h1)
    · rcases hbc with h2 | ⟨h2, g2⟩
      · exact Or.inl (h1 ▸ h2)
      · exact Or.inr ⟨h1.trans h2, g2.trans g1⟩

/-- The scale vector fetched by `_compute_feedback`
(`scaler.get("scale", [1.0, 1.0, 1.0])`, without the zero guard). -/
def feedbackScales (md : Metadata) : List ℚ :=
  (md.scaler.bind ScalerMeta.scale).getD [1, 1, 1]

/-- The divisor `_compute_feedback` uses to rescale a raw delta:
`scales[idx]` when the index is in range else `1.0`, and `1.0` again when
that value is zero. -/
def feedbackDivisor (md : Metadata) (idx : ℕ) : ℚ :=
  let scale := (feedbackScales md).getD idx 1
  if scale = 0 then 1 else scale

/-- The body of the `_compute_feedback` loop for one `(idx, feature)` pair:
`none` exactly when the allowed increase is not positive (the `continue`). -/
noncomputable def buildSuggestion (md : Metadata) (raw : List ℚ) (base_logit : ℝ)
    (base_prob : ℝ) (idx : ℕ) (feature : String) : Option Suggestion :=
  let current_value := raw.getD idx 0
  let cap := maxIncrease feature
  let delta_value := min cap (100 - current_value)
  if delta_value ≤ 0 then none
  else
    let coef := getCoef md feature
    let delta_scaled := delta_value / feedbackDivisor md idx
    let delta_log_odds := coef * delta_scaled
    let new_prob := sigmoid (base_logit + ((delta_log_odds : ℚ) : ℝ))
    let gain := max 0 (new_prob - base_prob)
    let priority : Priority :=
      if gain < 0.005 then .low else if gain < 0.10 then .medium else .high
    some
      { feature := feature
        current_value := current_value
        delta_value := delta_value
        estimated_probability_gain := gain
        new_probability_estimate := new_prob
        priority := priority
        explanation := featureTip feature }

/-- `Predictor._compute_feedback`: build a suggestion per feature, skipping
features whose allowed increase is not positive, then sort by
`(priority_rank, -gain)`. -/
noncomputable def computeFeedback (md : Metadata) (raw : List ℚ) (base_prob : ℝ) :
    List Suggestion :=
  let base_logit := logit base_prob
  List.insertionSort suggLE
    (FEATURES.enum.filterMap
      (fun p => buildSuggestion md raw base_logit base_prob p.1 p.2))

/-! ## The predictor (`Predictor.predict`, `Predictor.predict_batch`) -/

/-- A batch item as `predict_batch` receives it: a dict whose feature keys
may be absent (`item.get(...)` yields `None`). -/
structure BatchItem where
  student_id : Option ℕ
  course_id : Option ℕ
  attendance : Option ℚ
  marks : Option ℚ
  internal_score : Option ℚ
  final_exam_score : Option ℚ
deriving DecidableEq

/-- Failures a predict call can raise: `InvalidInputError`, plain (single
predict and the unwrapped `final_exam_score` check of the batch loop) or
wrapped with the offending batch item (`Invalid batch item {item}: ...`);
and the numpy broadcast `ValueError` escaping `_standardize`, which is not
an `InvalidInputError` and surfaces as an unclassified server error. -/
inductive PredictError where
  | invalidInput (msg : String)
  | invalidBatchItem (item : BatchItem) (msg : String)
  | numpyBroadcast (msg : String)
deriving DecidableEq

/-- Input of the single-predict endpoint: three required features plus the
optional `final_exam_score`. -/
structure PredictInput where
  attendance : ℚ
  marks : ℚ
  internal_score : ℚ
  final_exam_score : Option ℚ
deriving DecidableEq

/-- All validations of `Predictor.predict` succeed. -/
def validInput (x : PredictInput) : Prop :=
  inBounds x.attendance ∧ inBounds x.marks ∧ inBounds x.internal_score ∧
    ∀ fe ∈ x.final_exam_score, inBounds fe

instance : DecidablePred validInput := fun _ =>
  inferInstanceAs (Decidable (_ ∧ _ ∧ _ ∧ _))

/-- All validations the batch loop runs on one item succeed. -/
def validItem (item : BatchItem) : Prop :=
  (∃ a ∈ item.attendance, inBounds a) ∧ (∃ m ∈ item.marks, inBounds m) ∧
    (∃ i ∈ item.internal_score, inBounds i) ∧
    ∀ fe ∈ item.final_exam_score, inBounds fe

instance : DecidablePred validItem := fun _ =>
  inferInstanceAs (Decidable (_ ∧ _ ∧ _ ∧ _))

/-- The raw model feature vector `[features[feat] for feat in FEATURES]`. -/
def rawVector (f : Features) : List ℚ := [f.attendance, f.marks, f.internal_score]

/-- Loaded predictor state: model, metadata, and the resolved threshold. -/
structure Predictor where
  model : FittedModel
  metadata : Metadata
  threshold : ℚ

/-- `Predictor._load_model_and_metadata` (successful path): resolve the
threshold from the environment and the loaded metadata. -/
def mkPredictor (model : FittedModel) (md : Metadata) (env : EnvThreshold) :
    Predictor :=
  ⟨model, md, resolveThreshold env md⟩

/-- A single prediction response. The narrative `feedback_paragraph`
(deterministic display text rendered from these same fields) is
presentation only and not modelled. -/
structure PredictResult where
  predicted_result : ℕ
  probability : ℝ
  threshold_used : ℚ
  suspicious_input : Bool
  explanation : Explanation
  feedback : List Suggestion
  suspicious_reasons : List String
  final_exam_score : Option ℚ

/-- The successful payload of `Predictor.predict` on validated inputs. -/
noncomputable def Predictor.predictResult (P : Predictor) (a m i : ℚ)
    (fe : Option ℚ) : PredictResult :=
  let features : Features := ⟨a, m, i⟩
  let notes := collectSuspicionMarkers features fe
  let raw := rawVector features
  let proba := P.model.predictProba raw
  let prediction : ℕ := if (P.threshold : ℝ) ≤ proba then 1 else 0
  { predicted_result := prediction
    probability := proba
    threshold_used := P.threshold
    suspicious_input := !notes.isEmpty
    explanation := buildExplanation P.metadata raw
    feedback := computeFeedback P.metadata raw proba
    suspicious_reasons := notes
    final_exam_score := fe }

/-- `Predictor.predict`: validate the four inputs in source order, then
compute probability, label against the resolved threshold, explanation,
suspicion flag and feedback. -/
noncomputable def Predictor.predict (P : Predictor) (x : PredictInput) :
    Except PredictError PredictResult := do
  let a ← (validateRange "attendance" (some x.attendance)).mapError .invalidInput
  let m ← (validateRange "marks" (some x.marks)).mapError .invalidInput
  let i ← (validateRange "internal_score" (some x.internal_score)).mapError .invalidInput
  match x.final_exam_score with
  | some fe =>
      let _ ← (validateRange "final_exam_score" (some fe)).mapError PredictError.invalidInput
      pure ()
  | none => pure ()
  return P.predictResult a m i x.final_exam_score

/-- `Predictor.predict` with `_standardize`'s numpy semantics threaded: the
same validations and response fields, except that the broadcast
`ValueError` raised while building the explanation aborts the call, as in
the source. On every metadata document whose scaler vectors broadcast
(`scalerShapesOk`), it succeeds like `Predictor.predict` does. -/
noncomputable def Predictor.predictNp (P : Predictor) (x : PredictInput) :
    Except PredictError PredictResult := do
  let a ← (validateRange "attendance" (some x.attendance)).mapError .invalidInput
  let m ← (validateRange "marks" (some x.marks)).mapError .invalidInput
  let i ← (validateRange "internal_score" (some x.internal_score)).mapError .invalidInput
  match x.final_exam_score with
  | some fe =>
      let _ ← (validateRange "final_exam_score" (some fe)).mapError PredictError.invalidInput
      pure ()
  | none => pure ()
  match buildExplanationNp P.metadata (rawVector ⟨a, m, i⟩) with
  | .error e => throw (.numpyBroadcast e)
  | .ok expl =>
      return { P.predictResult a m i x.final_exam_score with explanation := expl }

/-- One validated batch entry (`processed_inputs` element). -/
structure ProcessedItem where
  meta : BatchItem
  features : Features
  notes : List String
deriving DecidableEq

/-- One iteration of the batch validation loop. Failures of the three
required features are wrapped with the offending item; the
`final_exam_score` check sits outside the `try` block and raises the plain
`InvalidInputError` unwrapped. -/
def processBatchItem (item : BatchItem) : Except PredictError ProcessedItem :=
  let req : Except String Features := do
    let a ← validateRange "attendance" item.attendance
    let m ← validateRange "marks" item.marks
    let i ← validateRange "internal_score" item.internal_score
    pure ⟨a, m, i⟩
  match req with
  | .error e => .error (.invalidBatchItem item ("Invalid batch item: " ++ e))
  | .ok features =>
      match item.final_exam_score with
      | some fe =>
          match validateRange "final_exam_score" (some fe) with
          | .error e => .error (.invalidInput e)
          | .ok _ => .ok ⟨item, features, collectSuspicionMarkers features item.final_exam_score⟩
      | none => .ok ⟨item, features, collectSuspicionMarkers features none⟩

/-- The batch validation pass over all items, in order, fail-fast. -/
def validateBatch : List BatchItem → Except PredictError (List ProcessedItem)
  | [] => .ok []
  | item :: rest => do
      let p ← processBatchItem item
      let ps ← validateBatch rest
      pure (p :: ps)

/-- One element of a batch response. -/
structure BatchResult where
  student_id : Option ℕ
  course_id : Option ℕ
  predicted_result : ℕ
  probability : ℝ
  threshold_used : ℚ
  suspicious_input : Bool
  explanation : Explanation
  suspicious_reasons : List String

/-- The inference step `predict_batch` runs on one validated item. -/
noncomputable def Predictor.inferOne (P : Predictor) (p : ProcessedItem) :
    BatchResult :=
  let raw := rawVector p.features
  let proba := P.model.predictProba raw
  { student_id := p.meta.student_id
    course_id := p.meta.course_id
    predicted_result := if (P.threshold : ℝ) ≤ proba then 1 else 0
    probability := proba
    threshold_used := P.threshold
    suspicious_input := !p.notes.isEmpty
    explanation := buildExplanation P.metadata raw
    suspicious_reasons := p.notes }

/-- `Predictor.predict_batch`: validate every item first; model inference
runs only after the whole batch validated. -/
noncomputable def Predictor.predictBatch (P : Predictor) (data : List BatchItem) :
    Except PredictError (List BatchResult) :=
  (validateBatch data).map (fun ps => ps.map P.inferOne)

/-! ## Training pipeline (`train.py`) -/

/-- A training row from the enrollments table; every column is nullable. -/
structure Enrollment where
  attendance : Option ℚ
  marks : Option ℚ
  internal_score : Option ℚ
  result : Option ℤ
deriving DecidableEq

/-- The rows whose result is non-null: the surviving rows of a successful
`dropna(subset=["result"])` call (see `dropnaResult` for the call itself,
including its failure mode). -/
def labeledRows (rows : List Enrollment) : List Enrollment :=
  rows.filter (fun e => e.result.isSome)

/-- Number of labeled samples available for training. -/
def labeledCount (rows : List Enrollment) : ℕ := (labeledRows rows).length

/-- `y = data["result"].astype(int)` on the labeled rows. -/
def classValues (rows : List Enrollment) : List ℤ :=
  (labeledRows rows).map (fun e => e.result.getD 0)

/-- `y.nunique()`. -/
def nunique (l : List ℤ) : ℕ := l.dedup.length

/-- The median a pandas `Series.median()` computes on the non-missing
values: midpoint of the middle elements of the sorted list. -/
def median (l : List ℚ) : ℚ :=
  let s := List.insertionSort (· ≤ ·) l
  let n := s.length
  if n = 0 then 0
  else if n % 2 = 1 then s.getD (n / 2) 0
  else (s.getD (n / 2 - 1) 0 + s.getD (n / 2) 0) / 2

/-- Imputation record for one feature column (`imputation_stats` entry):
`median_used` is present exactly when values were imputed. -/
structure ImputeStat where
  imputed_count : ℕ
  median_used : Option ℚ
deriving DecidableEq

/-- `_prepare_features` on one column: fill missing values with the
column median and record the statistics. -/
def imputeColumn (vals : List (Option ℚ)) : List ℚ × ImputeStat :=
  let missing := (vals.filter Option.isNone).length
  if missing > 0 then
    let m := median (vals.filterMap id)
    (vals.map (fun v => v.getD m), ⟨missing, some m⟩)
  else
    (vals.map (fun v => v.getD 0), ⟨0, none⟩)

/-- Cross-validated metrics averaged over folds (`metrics_cv`). -/
structure CvMetrics where
  accuracy : ℚ
  precision : ℚ
  «recall» : ℚ
  f1_score : ℚ
deriving DecidableEq

/-- `np.mean` of a list of floats. -/
def listMean (l : List ℚ) : ℚ := l.sum / l.length

/-- `np.mean(..., axis=0)` over the per-fold 3-vectors of classifier
coefficients. -/
def foldCoefMean (coefs : List (List ℚ)) : List ℚ :=
  (List.range 3).map (fun i => listMean (coefs.map (fun c => c.getD i 0)))

/-- Modelled from the spec: sklearn's binary `f1_score(y, preds,
zero_division=0)` with positive label 1, where `preds = (scores >=
threshold)`. The harmonic-mean formula `2tp / (2tp + fp + fn)` is the
standard definition; `zero_division=0` returns 0 on an empty denominator. -/
def f1Score (y : List ℤ) (scores : List ℚ) (t : ℚ) : ℚ :=
  let pairs := y.zip scores
  let tp := (pairs.filter (fun p => p.1 == 1 && decide (t ≤ p.2))).length
  let fp := (pairs.filter (fun p => p.1 != 1 && decide (t ≤ p.2))).length
  let fn := (pairs.filter (fun p => p.1 == 1 && decide (¬ t ≤ p.2))).length
  if 2 * tp + fp + fn = 0 then 0 else (2 * tp : ℚ) / (2 * tp + fp + fn : ℕ)

/-- One step of the threshold scan in `train_model`: keep the candidate
whose F1 strictly improves on the best so far. -/
def scanStep (y : List ℤ) (scores : List ℚ) (acc : ℚ × ℚ) (t : ℚ) : ℚ × ℚ :=
  if acc.2 < f1Score y scores t then (t, f1Score y scores t) else acc

/-- The scan over all ROC thresholds, started at
`best_threshold = 0.6, best_f1 = -1.0`. -/
def bestThresholdScan (y : List ℤ) (scores : List ℚ) (ts : List ℚ) : ℚ × ℚ :=
  ts.foldl (scanStep y scores) (0.6, -1)

/-- The metadata document body `train_model` assembles (every key except
the merged-in `user_threshold`). -/
structure TrainBody where
  generated_at : String
  feature_names : List String
  class_counts : List (ℤ × ℕ)
  class_distribution : List (ℤ × ℚ)
  imputation : List (String × ImputeStat)
  coefficients : List (String × ℚ)
  intercept : ℚ
  permutation_importance : List (String × ℚ)
  metrics_cv : CvMetrics
  roc_auc : ℚ
  recommended_threshold : ℚ
  scaler_mean : List ℚ
  scaler_scale : List ℚ
deriving DecidableEq

/-- An arbitrary JSON value stored under `user_threshold`. -/
inductive JsonVal where
  | num (q : ℚ)
  | str (s : String)
  | null
  | other
deriving DecidableEq

/-- A persisted metadata document: the training-produced body plus the
optional `user_threshold` key (absent from any freshly trained body). -/
structure MetaDoc where
  user_threshold : Option JsonVal
  body : TrainBody
deriving DecidableEq

/-- `_save_metadata`: if a readable previous document at the path has a
`user_threshold` key and the new document does not, carry it forward;
`existing = none` covers both a missing file and an unreadable one. -/
def saveMetadata (existing : Option MetaDoc) (newMd : MetaDoc) : MetaDoc :=
  match existing with
  | some ex =>
      if ex.user_threshold.isSome ∧ newMd.user_threshold.isNone then
        { newMd with user_threshold := ex.user_threshold }
      else newMd
  | none => newMd

/-- The on-disk artifacts (`joblib` model blob and metadata JSON). -/
structure ModelStore where
  model : Option FittedModel
  metadata : Option MetaDoc

/-- Training failures: the two classified `ValueError`s of
`train_from_db` / `train_model`, and the unclassified pandas `KeyError`
that `dropna(subset=["result"])` raises on a column-less empty DataFrame
(surfacing as a server error, not a client error). -/
inductive TrainError where
  | insufficientData (got : ℕ)
  | singleClass
  | keyError (col : String)
deriving DecidableEq

/-- Modelled from the spec: the numeric outputs of the opaque scikit-learn
fitting steps of `train_model` (5-fold `cross_validate` estimators and
scores, the full-data uncalibrated pipeline fit, the calibrated model and
its training-set probabilities, `roc_curve` thresholds, `roc_auc_score`,
and permutation importance). `train_model` consumes these values; their
computation lives inside scikit-learn. -/
structure FitOracle where
  cv_fold_coefs : List (List ℚ)
  cv_fold_intercepts : List ℚ
  cv_metrics : CvMetrics
  full_fit : FittedModel
  calibrated_model : FittedModel
  y_scores : List ℚ
  roc_auc : ℚ
  roc_thresholds : List ℚ
  permutation_importance : List (String × ℚ)
deriving DecidableEq

/-- What `train_model` returns: the calibrated model, the cross-validated
metrics, and the (merged) metadata document it persisted. -/
structure TrainOutput where
  model : FittedModel
  metrics : CvMetrics
  metadata : MetaDoc
deriving DecidableEq

/-- The metadata dict assembled by `train_model` (all keys; a fresh
training run defines no `user_threshold`). The feature columns are imputed
by `_prepare_features`; the per-fold aggregates, full-fit scaler statistics
and calibrated scores come from the fitting steps. -/
def trainNewBody (oracle : FitOracle) (now : String) (data : List Enrollment) :
    TrainBody :=
  let attCol := imputeColumn (data.map Enrollment.attendance)
  let marksCol := imputeColumn (data.map Enrollment.marks)
  let internalCol := imputeColumn (data.map Enrollment.internal_score)
  let y := data.map (fun e => e.result.getD 0)
  let classCounts := y.dedup.map (fun c => (c, y.count c))
  let classDistribution := classCounts.map (fun p => (p.1, (p.2 : ℚ) / y.length))
  let best := bestThresholdScan y oracle.y_scores oracle.roc_thresholds
  { generated_at := now
    feature_names := FEATURES
    class_counts := classCounts
    class_distribution := classDistribution
    imputation :=
      [("attendance", attCol.2), ("marks", marksCol.2),
        ("internal_score", internalCol.2)]
    coefficients := FEATURES.zip (foldCoefMean oracle.cv_fold_coefs)
    intercept := listMean oracle.cv_fold_intercepts
    permutation_importance := oracle.permutation_importance
    metrics_cv := oracle.cv_metrics
    roc_auc := oracle.roc_auc
    recommended_threshold := max best.1 0.6
    scaler_mean := oracle.full_fit.mean
    scaler_scale := oracle.full_fit.scale }

/-- `train_model` on labeled rows: the single-class precondition (raised
before anything is written), metadata assembly, the merge with any previous
document, and the two writes. Returns the updated store together with the
call's result; a raise leaves the store untouched. -/
def trainModelStore (oracle : FitOracle) (now : String) (store : ModelStore)
    (data : List Enrollment) : ModelStore × Except TrainError TrainOutput :=
  let y := data.map (fun e => e.result.getD 0)
  if nunique y < 2 then (store, .error .singleClass)
  else
    let written := saveMetadata store.metadata ⟨none, trainNewBody oracle now data⟩
    (⟨some oracle.calibrated_model, some written⟩,
      .ok ⟨oracle.calibrated_model, oracle.cv_metrics, written⟩)

/-- `_to_dataframe_from_enrollments` followed by
`df.dropna(subset=["result"])`: an empty record list builds
`pd.DataFrame([])`, a frame with no columns at all, so `dropna` raises
`KeyError: ['result']` before any length check; a nonempty record list
always carries all four columns and the rows with a missing result are
dropped. -/
def dropnaResult (rows : List Enrollment) : Except TrainError (List Enrollment) :=
  if rows.isEmpty then .error (.keyError "result")
  else .ok (labeledRows rows)

/-- `train_from_db`: build the frame and drop unlabeled rows (which raises
on an empty enrollments list), require at least 10 samples (naming the
actual count), then run `train_model`. Any raise leaves the store
untouched. -/
def trainFromDbStore (oracle : FitOracle) (now : String) (store : ModelStore)
    (rows : List Enrollment) : ModelStore × Except TrainError TrainOutput :=
  match dropnaResult rows with
  | .error e => (store, .error e)
  | .ok df =>
      if df.length < 10 then (store, .error (.insufficientData df.length))
      else trainModelStore oracle now store df

/-! ## Specification-level predicates -/

/-- One of the three fixed suspicion heuristics fires on the input. -/
def suspicionRuleFires (x : PredictInput) : Prop :=
  (x.marks = 0 ∧ 60 ≤ x.internal_score) ∨
    (x.attendance < 40 ∧ 80 ≤ x.marks) ∨
    (∃ fe ∈ x.final_exam_score, fe < 20 ∧ 70 ≤ x.marks)

instance : DecidablePred suspicionRuleFires := fun _ =>
  inferInstanceAs (Decidable (_ ∨ _ ∨ _))

/-- The batch call fails with an error that carries an offending invalid
item of the batch (the reading of "fails with InvalidInput identifying the
offending item"). -/
def batchIdentifiesOffender (P : Predictor) (data : List BatchItem) : Prop :=
  ∃ item msg, item ∈ data ∧ ¬ validItem item ∧
    P.predictBatch data = .error (.invalidBatchItem item msg)

/-- The claim that a training run records, as the reference coefficients of
the metadata document, the coefficients of the uncalibrated pipeline fitted
once on the full training dataset. -/
def recordsFullFitCoefs (oracle : FitOracle) (now : String) (store : ModelStore)
    (rows : List Enrollment) : Prop :=
  ((trainFromDbStore oracle now store rows).1.metadata.map
      (fun d => d.body.coefficients)) =
    some (FEATURES.zip oracle.full_fit.coef)

/-- The claimed `InsufficientData` outcome of one training call: the call
fails naming the labeled-sample count and writes nothing. -/
def failsWithInsufficientData (oracle : FitOracle) (now : String)
    (store : ModelStore) (rows : List Enrollment) : Prop :=
  trainFromDbStore oracle now store rows =
    (store, .error (.insufficientData (labeledCount rows)))

/-- The claim that `predict` returns a response on a valid input whatever
the scaler contents of the loaded metadata, read against the faithful numpy
semantics (`Predictor.predictNp`). -/
def predictTotalOn (P : Predictor) (x : PredictInput) : Prop :=
  ∃ r, P.predictNp x = .ok r

/-! ## Concrete fixtures for witnesses and counterexamples -/

/-- Ten fully labeled training rows with both classes present. -/
def rows0 : List Enrollment :=
  [⟨some 90, some 85, some 80, some 1⟩, ⟨some 80, some 75, some 70, some 1⟩,
   ⟨some 95, some 90, some 88, some 1⟩, ⟨some 70, some 65, some 60, some 1⟩,
   ⟨some 85, some 80, some 75, some 1⟩, ⟨some 30, some 25, some 20, some 0⟩,
   ⟨some 40, some 35, some 30, some 0⟩, ⟨some 20, some 45, some 25, some 0⟩,
   ⟨some 50, some 30, some 35, some 0⟩, ⟨some 35, some 40, some 45, some 0⟩]

/-- Three labeled rows: not enough data to train. -/
def rowsFew : List Enrollment :=
  [⟨some 90, some 85, some 80, some 1⟩, ⟨some 30, some 25, some 20, some 0⟩,
   ⟨some 40, some 35, some 30, none⟩, ⟨some 50, some 45, some 40, some 1⟩]

/-- Twelve labeled rows all of class 1. -/
def rowsOneClass : List Enrollment :=
  List.replicate 12 ⟨some 80, some 75, some 70, some 1⟩

/-- An empty model store (fresh deployment). -/
def store0 : ModelStore := ⟨none, none⟩

/-- A minimal metadata body. -/
def body0 : TrainBody :=
  { generated_at := "2024-01-01T00:00:00Z"
    feature_names := FEATURES
    class_counts := []
    class_distribution := []
    imputation := []
    coefficients := []
    intercept := 0
    permutation_importance := []
    metrics_cv := ⟨0, 0, 0, 0⟩
    roc_auc := 0
    recommended_threshold := 0.6
    scaler_mean := []
    scaler_scale := [] }

/-- A previously persisted document carrying an admin threshold 0.55. -/
def exDoc : MetaDoc := ⟨some (.num (11/20)), body0⟩

/-- A freshly trained document (no `user_threshold` key). -/
def newDoc0 : MetaDoc := ⟨none, body0⟩

/-- A store whose metadata carries the admin threshold. -/
def storeWithUser : ModelStore := ⟨none, some exDoc⟩

/-- Concrete numeric outputs standing for one scikit-learn fitting run. -/
def oracle0 : FitOracle :=
  { cv_fold_coefs := [[1, 2, 3], [1, 2, 3]]
    cv_fold_intercepts := [0, 0]
    cv_metrics := ⟨9/10, 9/10, 9/10, 9/10⟩
    full_fit := ⟨[50, 50, 50], [10, 10, 10], [1, 2, 3], 0⟩
    calibrated_model := ⟨[50, 50, 50], [10, 10, 10], [1, 2, 3], 0⟩
    y_scores := [9/10, 8/10, 9/10, 7/10, 8/10, 2/10, 3/10, 2/10, 4/10, 3/10]
    roc_auc := 1
    roc_thresholds := [7/10, 1/2]
    permutation_importance := [("attendance", 1), ("marks", 0), ("internal_score", 0)] }

/-- A fitting run whose cross-validation fold average `[2, 2, 2]` differs
from the full-dataset fit coefficients `[1, 1, 1]`. -/
def oracle8 : FitOracle :=
  { oracle0 with
    cv_fold_coefs := [[1, 1, 1], [3, 3, 3]]
    full_fit := ⟨[50, 50, 50], [10, 10, 10], [1, 1, 1], 0⟩ }

/-- A metadata document whose scaler scale vector contains zeros. -/
def md0 : Metadata :=
  ⟨none, none, some [("attendance", 1), ("marks", 2), ("internal_score", 3)],
    none, some ⟨some [0, 0, 0], some [0, 5, 0]⟩⟩

/-- A concrete deployed model. -/
def model0 : FittedModel := ⟨[50, 50, 50], [10, 10, 10], [1, 2, 3], 0⟩

/-- A loaded predictor over the zero-scale metadata, no env override. -/
noncomputable def P0 : Predictor := mkPredictor model0 md0 .unset

/-- A metadata document whose stored scale vector has length 2: numpy
cannot broadcast it against the 3-element feature vector. -/
def md2 : Metadata := ⟨none, none, none, none, some ⟨none, some [0, 0]⟩⟩

/-- A loaded predictor over the mis-shaped metadata. -/
noncomputable def P2 : Predictor := mkPredictor model0 md2 .unset

/-- A valid input that trips the first suspicion rule. -/
def x0 : PredictInput := ⟨56, 0, 70, none⟩

/-- A valid batch of two items. -/
def data1 : List BatchItem :=
  [⟨some 1, some 2, some 90, some 85, some 80, none⟩,
   ⟨none, none, some 50, some 50, some 50, some 50⟩]

/-- A batch whose only flaw is an out-of-range `final_exam_score`. -/
def data7 : List BatchItem :=
  [⟨some 1, none, some 50, some 50, some 50, some 150⟩]

/-- A batch with a missing required feature among valid items. -/
def data7b : List BatchItem :=
  [⟨some 1, some 2, some 90, some 85, some 80, none⟩,
   ⟨some 3, some 4, none, some 85, some 80, none⟩]

/-! ## Helper lemmas -/

theorem resolveFromMetadata_eq (md : Metadata) :
    resolveFromMetadata md =
      ((metaOverride md.user_threshold).or
        (metaOverride md.recommended_threshold)).getD 0.6 := by
  unfold resolveFromMetadata metaOverride
  rcases md.user_threshold with _ | u
  · rcases md.recommended_threshold with _ | r
    · rfl
    · cases r with
      | num q => by_cases hq : 0 < q ∧ q < 1 <;> simp [hq]
      | other => rfl
  · cases u with
    | num q =>
        by_cases hq : 0 < q ∧ q < 1
        · simp [hq]
        · rcases md.recommended_threshold with _ | r
          · simp [hq]
          · cases r with
            | num q2 => by_cases hq2 : 0 < q2 ∧ q2 < 1 <;> simp [hq, hq2]
            | other => simp [hq]
    | other =>
        rcases md.recommended_threshold with _ | r
        · rfl
        · cases r with
          | num q2 => by_cases hq2 : 0 < q2 ∧ q2 < 1 <;> simp [hq2]
          | other => rfl

theorem resolveThreshold_eq (env : EnvThreshold) (md : Metadata) :
    resolveThreshold env md =
      (((envOverride env).or (metaOverride md.user_threshold)).or
        (metaOverride md.recommended_threshold)).getD 0.6 := by
  unfold resolveThreshold envOverride
  cases env with
  | numeric q =>
      by_cases hq : 0 < q ∧ q < 1
      · simp [hq]
      · simp [hq, resolveFromMetadata_eq, Option.or_assoc]
  | unset => simp [resolveFromMetadata_eq, Option.or_assoc]
  | empty => simp [resolveFromMetadata_eq, Option.or_assoc]
  | nonNumeric s => simp [resolveFromMetadata_eq, Option.or_assoc]

theorem resolveThresholdWithSource_fst (env : EnvThreshold) (mdOpt : Option Metadata) :
    (resolveThresholdWithSource env mdOpt).1 =
      resolveThreshold env (mdOpt.getD Metadata.empty) := by
  rcases mdOpt with _ | ⟨ut, rt, co, pi, sc⟩ <;>
    cases env <;>
    (try rcases ut with _ | (uq | _)) <;>
    (try rcases rt with _ | (rq | _)) <;>
    simp only [resolveThresholdWithSource,
      resolveThresholdWithSource.resolveWithSourceFromMetadata, resolveThreshold,
      resolveFromMetadata, Metadata.empty, Option.getD] <;>
    first
      | (split_ifs <;> rfl)
      | rfl

/-! ## C2: threshold resolution precedence -/

/-- C2. Threshold resolution obeys strict precedence: a valid environment
override (numeric, strictly inside `(0,1)`) wins; otherwise a valid
persisted `user_threshold`; otherwise a valid `recommended_threshold`;
otherwise the hardcoded default 0.6. Malformed overrides at any level are
skipped, never raising (both resolvers are total functions); the API-side
resolver of `main.py` computes the same value, with a missing/unreadable
metadata document behaving as an empty one. -/
theorem C2_threshold_precedence (env : EnvThreshold) (md : Metadata) :
    resolveThreshold env md =
      (((envOverride env).or (metaOverride md.user_threshold)).or
        (metaOverride md.recommended_threshold)).getD 0.6 ∧
    ∀ mdOpt : Option Metadata,
      (resolveThresholdWithSource env mdOpt).1 =
        resolveThreshold env (mdOpt.getD Metadata.empty) :=
  ⟨resolveThreshold_eq env md, fun mdOpt => resolveThresholdWithSource_fst env mdOpt⟩

theorem validateRange_ok (name : String) (q : ℚ)
    (h : (BOUNDS name).1 ≤ q ∧ q ≤ (BOUNDS name).2) :
    validateRange name (some q) = .ok q := by
  simp [validateRange, h]

theorem predict_ok (P : Predictor) (x : PredictInput) (hx : validInput x) :
    P.predict x =
      .ok (P.predictResult x.attendance x.marks x.internal_score
        x.final_exam_score) := by
  obtain ⟨ha, hm, hi, hf⟩ := hx
  have hva := validateRange_ok "attendance" x.attendance (by simpa [BOUNDS] using ha)
  have hvm := validateRange_ok "marks" x.marks (by simpa [BOUNDS] using hm)
  have hvi := validateRange_ok "internal_score" x.internal_score
    (by simpa [BOUNDS] using hi)
  unfold Predictor.predict
  rw [hva, hvm, hvi]
  cases hfe : x.final_exam_score with
  | none => rfl
  | some fe =>
      have hvf := validateRange_ok "final_exam_score" fe
        (by simpa [BOUNDS] using hf fe hfe)
      simp [hvf]
      rfl

theorem ite_singleton_eq_nil {c : Prop} [Decidable c] (s : String) :
    ((if c then [s] else []) = ([] : List String)) ↔ ¬ c := by
  split_ifs with h <;> simp [h]

theorem collectSuspicionMarkers_ne_nil (f : Features) (fe : Option ℚ) :
    collectSuspicionMarkers f fe ≠ [] ↔
      ((f.marks = 0 ∧ 60 ≤ f.internal_score) ∨
        (f.attendance < 40 ∧ 80 ≤ f.marks) ∨
        (∃ v ∈ fe, v < 20 ∧ 70 ≤ f.marks)) := by
  unfold collectSuspicionMarkers
  rcases fe with _ | v
  · dsimp only
    rw [Ne, List.append_eq_nil, List.append_eq_nil, ite_singleton_eq_nil,
      ite_singleton_eq_nil]
    have hnone : (∃ x ∈ (none : Option ℚ), x < 20 ∧ 70 ≤ f.marks) ↔ False := by
      simp
    rw [hnone]
    tauto
  · dsimp only
    rw [Ne, List.append_eq_nil, List.append_eq_nil, ite_singleton_eq_nil,
      ite_singleton_eq_nil, ite_singleton_eq_nil]
    have hsome : (∃ x ∈ some v, x < 20 ∧ 70 ≤ f.marks) ↔ (v < 20 ∧ 70 ≤ f.marks) := by
      simp
    rw [hsome]
    tauto

theorem ite_one_zero_eq_one {c : Prop} [Decidable c] :
    ((if c then (1 : ℕ) else 0) = 1) ↔ c := by
  split_ifs with h <;> simp [h]

theorem predictProba_pos (m : FittedModel) (raw : List ℚ) :
    0 < m.predictProba raw :=
  sigmoid_pos _

theorem predictProba_lt_one (m : FittedModel) (raw : List ℚ) :
    m.predictProba raw < 1 :=
  sigmoid_lt_one _

/-! ## C9: suspicion detection is advisory -/

/-- C9. On every validated input, `predict` succeeds and: the
`suspicious_input` flag is set exactly when at least one of the three fixed
rules fires (`suspicious_reasons` carries exactly the collected markers);
the returned probability is exactly the model probability of the feature
vector, and the label is exactly the threshold comparison on it — the flag
enters neither, so it never alters them. -/
theorem C9_suspicion_rules (P : Predictor) (x : PredictInput)
    (hx : validInput x) :
    ∃ r, P.predict x = .ok r ∧
      (r.suspicious_input = true ↔ suspicionRuleFires x) ∧
      r.suspicious_reasons =
        collectSuspicionMarkers ⟨x.attendance, x.marks, x.internal_score⟩
          x.final_exam_score ∧
      r.probability =
        P.model.predictProba
          (rawVector ⟨x.attendance, x.marks, x.internal_score⟩) ∧
      (r.predicted_result = 1 ↔ (P.threshold : ℝ) ≤ r.probability) := by
  refine ⟨_, predict_ok P x hx, ?_, rfl, rfl, ?_⟩
  · show (!(collectSuspicionMarkers ⟨x.attendance, x.marks, x.internal_score⟩
        x.final_exam_score).isEmpty) = true ↔ _
    rw [Bool.not_eq_eq_eq_not, Bool.not_true, List.isEmpty_eq_false_iff_exists_mem]
    constructor
    · intro h
      have hne : collectSuspicionMarkers ⟨x.attendance, x.marks, x.internal_score⟩
          x.final_exam_score ≠ [] := by
        rcases h with ⟨a, ha⟩
        intro hnil
        rw [hnil] at ha
        cases ha
      exact (collectSuspicionMarkers_ne_nil _ _).mp hne
    · intro h
      have hne := (collectSuspicionMarkers_ne_nil
        ⟨x.attendance, x.marks, x.internal_score⟩ x.final_exam_score).mpr h
      rcases List.exists_mem_of_ne_nil _ hne with ⟨a, ha⟩
      exact ⟨a, ha⟩
  · exact ite_one_zero_eq_one

/-! ## C10: standardization and suggestions never divide by zero
(corrected) -/

theorem npBroadcast_3 (f : ℚ → ℚ → ℚ) (a b : List ℚ) (ha : a.length = 3)
    (hb : b.length = 3 ∨ b.length = 1) :
    ∃ c, npBroadcast f a b = .ok c ∧ c.length = 3 := by
  unfold npBroadcast
  rcases hb with hb | hb
  · rw [if_pos (by rw [ha, hb])]
    refine ⟨_, rfl, ?_⟩
    rw [List.length_zipWith, ha, hb]
    decide
  · have hcond : ¬ a.length = b.length := by
      rw [ha, hb]
      decide
    have hA : ¬ a.length = 1 := by
      rw [ha]
      decide
    rw [if_neg hcond, if_neg hA, if_pos hb]
    exact ⟨_, rfl, by rw [List.length_map, ha]⟩

theorem standardize_ok (md : Metadata) (raw : List ℚ) (h3 : raw.length = 3)
    (hsh : scalerShapesOk md) : ∃ v, standardize md raw = .ok v := by
  obtain ⟨hm, hs⟩ := hsh
  have hmean : ((md.scaler.bind ScalerMeta.mean).getD [0, 0, 0]).length = 3 ∨
      ((md.scaler.bind ScalerMeta.mean).getD [0, 0, 0]).length = 1 := by
    rcases hmm : md.scaler.bind ScalerMeta.mean with _ | l
    · left
      rfl
    · simpa using hm l (by rw [hmm]; rfl)
  have hscale : (effectiveScaleList md).length = 3 ∨
      (effectiveScaleList md).length = 1 := by
    unfold effectiveScaleList
    rw [List.length_map]
    rcases hss : md.scaler.bind ScalerMeta.scale with _ | l
    · left
      rfl
    · simpa using hs l (by rw [hss]; rfl)
  obtain ⟨c, hc, hclen⟩ := npBroadcast_3 (fun x mu => x - mu) raw _ h3 hmean
  obtain ⟨v, hv, _⟩ := npBroadcast_3 (fun d y => d / y) c _ hclen hscale
  refine ⟨v, ?_⟩
  simp only [standardize, hc]
  exact hv

theorem standardize_agrees (md : Metadata) (raw : List ℚ) (h3 : raw.length = 3)
    (hm : ∀ l ∈ md.scaler.bind ScalerMeta.mean, l.length = 3)
    (hs : ∀ l ∈ md.scaler.bind ScalerMeta.scale, l.length = 3) :
    standardize md raw = .ok (standardizeTrunc md raw) := by
  have hmean : ((md.scaler.bind ScalerMeta.mean).getD [0, 0, 0]).length = 3 := by
    rcases hmm : md.scaler.bind ScalerMeta.mean with _ | l
    · rfl
    · simpa using hm l (by rw [hmm]; rfl)
  have hscale : (effectiveScaleList md).length = 3 := by
    unfold effectiveScaleList
    rw [List.length_map]
    rcases hss : md.scaler.bind ScalerMeta.scale with _ | l
    · rfl
    · simpa using hs l (by rw [hss]; rfl)
  have h1 : raw.length =
      ((md.scaler.bind ScalerMeta.mean).getD [0, 0, 0]).length := by
    rw [h3, hmean]
  have h2 : (List.zipWith (fun x mu => x - mu) raw
      ((md.scaler.bind ScalerMeta.mean).getD [0, 0, 0])).length =
      (effectiveScaleList md).length := by
    rw [List.length_zipWith, h3, hmean, hscale]
    decide
  have hstep1 : npBroadcast (fun x mu => x - mu) raw
      ((md.scaler.bind ScalerMeta.mean).getD [0, 0, 0]) =
      .ok (List.zipWith (fun x mu => x - mu) raw
        ((md.scaler.bind ScalerMeta.mean).getD [0, 0, 0])) := by
    unfold npBroadcast
    rw [if_pos h1]
  have hstep2 : npBroadcast (fun d s => d / s)
      (List.zipWith (fun x mu => x - mu) raw
        ((md.scaler.bind ScalerMeta.mean).getD [0, 0, 0]))
      (effectiveScaleList md) =
      .ok (List.zipWith (fun d s => d / s)
        (List.zipWith (fun x mu => x - mu) raw
          ((md.scaler.bind ScalerMeta.mean).getD [0, 0, 0]))
        (effectiveScaleList md)) := by
    unfold npBroadcast
    rw [if_pos h2]
  simp only [standardize, standardizeTrunc, hstep1]
  exact hstep2

theorem Except_ok_bind {ε α β : Type} (a : α) (f : α → Except ε β) :
    ((Except.ok a : Except ε α) >>= f) = f a := rfl

theorem Except_mapError_ok {ε ε' α : Type} (f : ε → ε') (a : α) :
    (Except.ok a : Except ε α).mapError f = .ok a := rfl

theorem Except_pure_eq_ok {ε α : Type} (a : α) :
    (pure a : Except ε α) = .ok a := rfl

theorem predictNp_ok (P : Predictor) (x : PredictInput) (hx : validInput x)
    (hsh : scalerShapesOk P.metadata) : ∃ r, P.predictNp x = .ok r := by
  obtain ⟨ha, hm, hi, hf⟩ := hx
  have hva := validateRange_ok "attendance" x.attendance (by simpa [BOUNDS] using ha)
  have hvm := validateRange_ok "marks" x.marks (by simpa [BOUNDS] using hm)
  have hvi := validateRange_ok "internal_score" x.internal_score
    (by simpa [BOUNDS] using hi)
  obtain ⟨v, hv⟩ := standardize_ok P.metadata
    (rawVector ⟨x.attendance, x.marks, x.internal_score⟩) rfl hsh
  have hbe : buildExplanationNp P.metadata
      (rawVector ⟨x.attendance, x.marks, x.internal_score⟩) =
      .ok (explanationFrom P.metadata v) := by
    unfold buildExplanationNp
    rw [hv]
    rfl
  unfold Predictor.predictNp
  rw [hva, hvm, hvi]
  cases hfe : x.final_exam_score with
  | none =>
      refine ⟨{ P.predictResult x.attendance x.marks x.internal_score none with
          explanation := explanationFrom P.metadata v }, ?_⟩
      simp [Except_mapError_ok, Except_ok_bind, Except_pure_eq_ok, hbe]
  | some fe =>
      have hvf := validateRange_ok "final_exam_score" fe
        (by simpa [BOUNDS] using hf fe hfe)
      refine ⟨{ P.predictResult x.attendance x.marks x.internal_score (some fe) with
          explanation := explanationFrom P.metadata v }, ?_⟩
      simp [Except_mapError_ok, Except_ok_bind, Except_pure_eq_ok, hvf, hbe]

/-- C10 (amended). For every metadata document — scaler zeros or absence
included — every entry of the effective scale vector used by `_standardize`
is nonzero and the divisor used by `_compute_feedback` is nonzero at every
index, so neither ever divides by zero; and `predict` succeeds on every
valid input for every metadata document whose stored scaler vectors have
numpy-broadcastable lengths (absent, length 3, or length 1 — every document
training writes has length 3). A stored vector of any other length makes
`_standardize` raise a broadcast `ValueError` that aborts the call (see the
counterexample). -/
theorem C10_no_zero_divisors (md : Metadata) (idx : ℕ) (P : Predictor)
    (x : PredictInput) (hx : validInput x) (hsh : scalerShapesOk P.metadata) :
    (∀ s ∈ effectiveScaleList md, s ≠ 0) ∧
      feedbackDivisor md idx ≠ 0 ∧
      ∃ r, P.predictNp x = .ok r := by
  refine ⟨?_, ?_, predictNp_ok P x hx hsh⟩
  · intro s hs
    rcases List.mem_map.mp hs with ⟨s0, _, hval⟩
    by_cases h0 : s0 = 0
    · rw [← hval]
      simp [h0]
    · rw [← hval]
      simp [h0]
  · simp only [feedbackDivisor]
    split_ifs with h
    · exact one_ne_zero
    · exact h

/-- C10's totality clause, as the specification states it, is false: over
the metadata document `md2`, whose stored scale vector has length 2, the
valid input `x0` makes `_standardize` raise a numpy broadcast `ValueError`,
aborting the predict call instead of returning a response. -/
theorem C10_counterexample :
    validInput x0 ∧ ¬ predictTotalOn P2 x0 ∧
      P2.predictNp x0 = .error (.numpyBroadcast
        "operands could not be broadcast together") := by
  refine ⟨by decide, ?_, rfl⟩
  rintro ⟨r, hr⟩
  rw [show P2.predictNp x0 = .error (.numpyBroadcast
    "operands could not be broadcast together") from rfl] at hr
  simp at hr

theorem processBatchItem_ok (item : BatchItem) (h : validItem item) :
    ∃ f : Features,
      processBatchItem item =
        .ok ⟨item, f, collectSuspicionMarkers f item.final_exam_score⟩ := by
  obtain ⟨⟨a, ha, hba⟩, ⟨m, hm, hbm⟩, ⟨i, hi, hbi⟩, hf⟩ := h
  have ha' : item.attendance = some a := ha
  have hm' : item.marks = some m := hm
  have hi' : item.internal_score = some i := hi
  have h1 := validateRange_ok "attendance" a (by simpa [BOUNDS] using hba)
  have h2 := validateRange_ok "marks" m (by simpa [BOUNDS] using hbm)
  have h3 := validateRange_ok "internal_score" i (by simpa [BOUNDS] using hbi)
  refine ⟨⟨a, m, i⟩, ?_⟩
  cases hfe : item.final_exam_score with
  | none =>
      simp only [processBatchItem, ha', hm', hi', h1, h2, h3, hfe]
      rfl
  | some fe =>
      have h4 := validateRange_ok "final_exam_score" fe
        (by simpa [BOUNDS] using hf fe hfe)
      simp only [processBatchItem, ha', hm', hi', h1, h2, h3, hfe, h4]
      rfl

theorem validateBatch_ok (data : List BatchItem)
    (h : ∀ i ∈ data, validItem i) : ∃ ps, validateBatch data = .ok ps := by
  induction data with
  | nil => exact ⟨[], rfl⟩
  | cons item rest ih =>
      obtain ⟨f, hp⟩ := processBatchItem_ok item (h item (by simp))
      obtain ⟨ps, hps⟩ := ih (fun i hi => h i (by simp [hi]))
      refine ⟨⟨item, f, collectSuspicionMarkers f item.final_exam_score⟩ :: ps, ?_⟩
      simp only [validateBatch, hp, hps]
      rfl

theorem inferOne_spec (P : Predictor) (p : ProcessedItem) :
    0 ≤ (P.inferOne p).probability ∧ (P.inferOne p).probability ≤ 1 ∧
      (P.inferOne p).threshold_used = P.threshold ∧
      ((P.inferOne p).predicted_result = 1 ↔
        (P.threshold : ℝ) ≤ (P.inferOne p).probability) :=
  ⟨le_of_lt (predictProba_pos _ _), le_of_lt (predictProba_lt_one _ _), rfl,
    ite_one_zero_eq_one⟩

/-! ## C1: probability bounds and label/threshold agreement -/

/-- C1. For every valid input to `predict` — and for every item of a valid
`predict_batch` call — the returned probability lies in `[0, 1]`, the
response's `threshold_used` is the predictor's resolved threshold, and the
predicted label is 1 exactly when the probability reaches that threshold. -/
theorem C1_probability_and_label (model : FittedModel) (md : Metadata)
    (env : EnvThreshold) (x : PredictInput) (data : List BatchItem)
    (hx : validInput x) (hdata : ∀ item ∈ data, validItem item) :
    (∃ r, (mkPredictor model md env).predict x = .ok r ∧
      0 ≤ r.probability ∧ r.probability ≤ 1 ∧
      r.threshold_used = resolveThreshold env md ∧
      (r.predicted_result = 1 ↔
        (resolveThreshold env md : ℝ) ≤ r.probability)) ∧
    (∃ rs, (mkPredictor model md env).predictBatch data = .ok rs ∧
      ∀ r ∈ rs, 0 ≤ r.probability ∧ r.probability ≤ 1 ∧
        r.threshold_used = resolveThreshold env md ∧
        (r.predicted_result = 1 ↔
          (resolveThreshold env md : ℝ) ≤ r.probability)) := by
  constructor
  · refine ⟨_, predict_ok (mkPredictor model md env) x hx, ?_, ?_, rfl, ?_⟩
    · exact le_of_lt (predictProba_pos _ _)
    · exact le_of_lt (predictProba_lt_one _ _)
    · exact ite_one_zero_eq_one
  · obtain ⟨ps, hps⟩ := validateBatch_ok data hdata
    refine ⟨ps.map (mkPredictor model md env).inferOne, ?_, ?_⟩
    · simp only [Predictor.predictBatch, hps]
      rfl
    · intro r hr
      rcases List.mem_map.mp hr with ⟨p, _, hpr⟩
      rw [← hpr]
      exact inferOne_spec (mkPredictor model md env) p

theorem buildSuggestion_spec {md : Metadata} {raw : List ℚ} {bl bp : ℝ}
    {idx : ℕ} {feature : String} {s : Suggestion}
    (h : buildSuggestion md raw bl bp idx feature = some s) :
    s.feature = feature ∧ s.current_value = raw.getD idx 0 ∧
      s.delta_value = min (maxIncrease feature) (100 - raw.getD idx 0) ∧
      0 < s.delta_value ∧ 0 ≤ s.estimated_probability_gain ∧
      (bp < 1 → s.estimated_probability_gain ≤ 1 - bp) := by
  unfold buildSuggestion at h
  dsimp only at h
  split at h
  · exact absurd h (by simp)
  · next hd =>
      have hs := Option.some.inj h
      subst hs
      refine ⟨rfl, rfl, rfl, not_le.mp hd, le_max_left 0 _, ?_⟩
      intro hbp
      apply max_le
      · linarith
      · have hlt := sigmoid_lt_one
          (bl + ((getCoef md feature *
            (min (maxIncrease feature) (100 - raw.getD idx 0) /
              feedbackDivisor md idx) : ℚ) : ℝ))
        linarith

theorem mem_computeFeedback {md : Metadata} {raw : List ℚ} {bp : ℝ}
    {s : Suggestion} :
    s ∈ computeFeedback md raw bp ↔
      ∃ p ∈ FEATURES.enum,
        buildSuggestion md raw (logit bp) bp p.1 p.2 = some s := by
  unfold computeFeedback
  rw [List.mem_insertionSort, List.mem_filterMap]

theorem FEATURES_enum_snd_inj :
    ∀ p ∈ FEATURES.enum, ∀ p' ∈ FEATURES.enum, p.2 = p'.2 → p = p' := by
  decide

/-! ## C3: improvement suggestions are bounded, nonneg-gain, and sorted -/

/-- C3. On every valid prediction: every suggestion's delta is exactly
`min(per-feature cap, 100 − current value)` and is positive, so no
suggestion pushes a feature above 100; every estimated probability gain
lies in `[0, 1 − current probability]`; a feature whose allowed increase is
not positive gets no suggestion at all; and the suggestion list is sorted
by priority (high, medium, low) and, within equal priority, by descending
gain. -/
theorem C3_feedback_suggestions (P : Predictor) (x : PredictInput)
    (hx : validInput x) :
    ∃ r, P.predict x = .ok r ∧
      (∀ s ∈ r.feedback,
        s.delta_value = min (maxIncrease s.feature) (100 - s.current_value) ∧
        0 < s.delta_value ∧ s.current_value + s.delta_value ≤ 100 ∧
        0 ≤ s.estimated_probability_gain ∧
        s.estimated_probability_gain ≤ 1 - r.probability) ∧
      (∀ p ∈ FEATURES.enum,
        min (maxIncrease p.2)
          (100 - (rawVector ⟨x.attendance, x.marks, x.internal_score⟩).getD p.1 0) ≤ 0 →
        ∀ s ∈ r.feedback, s.feature ≠ p.2) ∧
      List.Sorted suggLE r.feedback := by
  refine ⟨_, predict_ok P x hx, ?_, ?_, ?_⟩
  · intro s hs
    rw [show (P.predictResult x.attendance x.marks x.internal_score
        x.final_exam_score).feedback =
      computeFeedback P.metadata
        (rawVector ⟨x.attendance, x.marks, x.internal_score⟩)
        (P.model.predictProba
          (rawVector ⟨x.attendance, x.marks, x.internal_score⟩)) from rfl] at hs
    rw [mem_computeFeedback] at hs
    obtain ⟨p, _, hb⟩ := hs
    obtain ⟨hfeat, hcur, hdelta, hpos, hg0, hg1⟩ := buildSuggestion_spec hb
    refine ⟨by rw [hfeat, hcur, hdelta], hpos, ?_, hg0,
      hg1 (predictProba_lt_one _ _)⟩
    have hmin : s.delta_value ≤
        100 - (rawVector ⟨x.attendance, x.marks, x.internal_score⟩).getD p.1 0 := by
      rw [hdelta]
      exact min_le_right _ _
    rw [hcur]
    linarith
  · intro p hp hmin s hs heq
    rw [show (P.predictResult x.attendance x.marks x.internal_score
        x.final_exam_score).feedback =
      computeFeedback P.metadata
        (rawVector ⟨x.attendance, x.marks, x.internal_score⟩)
        (P.model.predictProba
          (rawVector ⟨x.attendance, x.marks, x.internal_score⟩)) from rfl] at hs
    rw [mem_computeFeedback] at hs
    obtain ⟨p', hp', hb⟩ := hs
    obtain ⟨hfeat, _, hdelta, hpos, _, _⟩ := buildSuggestion_spec hb
    have hpp : p' = p :=
      FEATURES_enum_snd_inj p' hp' p hp (by rw [← hfeat, heq])
    rw [hpp] at hdelta
    rw [hdelta] at hpos
    exact absurd hmin (not_le.mpr hpos)
  · exact List.sorted_insertionSort suggLE _

theorem saveMetadata_body (existing : Option MetaDoc) (newMd : MetaDoc) :
    (saveMetadata existing newMd).body = newMd.body := by
  unfold saveMetadata
  rcases existing with _ | ex
  · rfl
  · dsimp only
    split_ifs <;> rfl

theorem dropnaResult_ok {rows : List Enrollment} (hne : rows ≠ []) :
    dropnaResult rows = .ok (labeledRows rows) := by
  unfold dropnaResult
  rw [if_neg]
  simpa using hne

theorem ne_nil_of_labeledCount {rows : List Enrollment}
    (h10 : 10 ≤ labeledCount rows) : rows ≠ [] := by
  intro hnil
  rw [hnil] at h10
  simp [labeledCount, labeledRows] at h10

theorem trainFromDbStore_of_ne_nil (oracle : FitOracle) (now : String)
    (store : ModelStore) (rows : List Enrollment) (hne : rows ≠ []) :
    trainFromDbStore oracle now store rows =
      (if (labeledRows rows).length < 10
        then (store, .error (.insufficientData (labeledRows rows).length))
        else trainModelStore oracle now store (labeledRows rows)) := by
  unfold trainFromDbStore
  rw [dropnaResult_ok hne]

theorem trainFromDb_success (oracle : FitOracle) (now : String)
    (store : ModelStore) (rows : List Enrollment)
    (h10 : 10 ≤ labeledCount rows) (hcl : 2 ≤ nunique (classValues rows)) :
    trainFromDbStore oracle now store rows =
      (⟨some oracle.calibrated_model,
        some (saveMetadata store.metadata
          ⟨none, trainNewBody oracle now (labeledRows rows)⟩)⟩,
        .ok ⟨oracle.calibrated_model, oracle.cv_metrics,
          saveMetadata store.metadata
            ⟨none, trainNewBody oracle now (labeledRows rows)⟩⟩) := by
  have h10' : ¬ (labeledRows rows).length < 10 := by
    unfold labeledCount at h10
    omega
  have hcl' : ¬ nunique ((labeledRows rows).map (fun e => e.result.getD 0)) < 2 := by
    unfold classValues at hcl
    omega
  rw [trainFromDbStore_of_ne_nil oracle now store rows (ne_nil_of_labeledCount h10),
    if_neg h10']
  unfold trainModelStore
  rw [if_neg hcl']

/-! ## C5: training preconditions (corrected) -/

/-- C5 (amended). On a nonempty enrollments list, training with fewer than
10 labeled samples fails with `InsufficientData` carrying the actual
labeled-sample count, and training whose labeled samples all lie in one
result class fails with `SingleClassError`; in both cases the store (model
and metadata files) is untouched. (On an empty enrollments list the
`dropna` call raises `KeyError` before the sample-count check — see the
counterexample.) -/
theorem C5_training_preconditions (oracle : FitOracle) (now : String)
    (store : ModelStore) (rows : List Enrollment)
    (hne : rows ≠ [])
    (h : labeledCount rows < 10 ∨
      (10 ≤ labeledCount rows ∧ nunique (classValues rows) < 2)) :
    trainFromDbStore oracle now store rows =
      (store, .error (if labeledCount rows < 10
        then .insufficientData (labeledCount rows) else .singleClass)) := by
  rcases h with h | ⟨h10, hcl⟩
  · have h' : (labeledRows rows).length < 10 := h
    rw [trainFromDbStore_of_ne_nil oracle now store rows hne, if_pos h', if_pos h]
    rfl
  · have h10' : ¬ (labeledRows rows).length < 10 := by
      unfold labeledCount at h10
      omega
    have h10'' : ¬ labeledCount rows < 10 := h10'
    have hcl' : nunique ((labeledRows rows).map (fun e => e.result.getD 0)) < 2 := hcl
    rw [trainFromDbStore_of_ne_nil oracle now store rows hne, if_neg h10']
    unfold trainModelStore
    rw [if_pos hcl', if_neg h10'']

/-- C5, as the specification states it, is false on the empty enrollments
list: its labeled count 0 is below 10, yet the call does not fail with
`InsufficientData` naming that count — `pd.DataFrame([])` has no columns,
so `dropna(subset=["result"])` raises `KeyError: ['result']` first, an
unclassified exception naming no sample count (the store is still
untouched). -/
theorem C5_counterexample :
    labeledCount ([] : List Enrollment) < 10 ∧
      trainFromDbStore oracle0 "2024-01-01T00:00:00Z" store0 [] =
        (store0, .error (.keyError "result")) ∧
      ¬ failsWithInsufficientData oracle0 "2024-01-01T00:00:00Z" store0 [] := by
  refine ⟨by decide, rfl, ?_⟩
  intro hclaim
  unfold failsWithInsufficientData at hclaim
  rw [show trainFromDbStore oracle0 "2024-01-01T00:00:00Z" store0 [] =
      (store0, .error (.keyError "result")) from rfl] at hclaim
  simp at hclaim

/-! ## C4: user_threshold survives retraining -/

/-- C4. When a previous metadata document at the same path carries a
`user_threshold` and the freshly trained document defines none, the merge
writes the training document with that `user_threshold` carried forward
unchanged and every other key exactly as training produced it; a
successful retrain over such a store persists the carried value. -/
theorem C4_user_threshold_carried (ex newMd : MetaDoc) (v : JsonVal)
    (oracle : FitOracle) (now : String) (store : ModelStore)
    (rows : List Enrollment)
    (h1 : ex.user_threshold = some v) (h2 : newMd.user_threshold = none)
    (hst : store.metadata = some ex)
    (h10 : 10 ≤ labeledCount rows) (hcl : 2 ≤ nunique (classValues rows)) :
    (saveMetadata (some ex) newMd).user_threshold = some v ∧
      (saveMetadata (some ex) newMd).body = newMd.body ∧
      ∃ doc, (trainFromDbStore oracle now store rows).1.metadata = some doc ∧
        doc.user_threshold = some v := by
  refine ⟨?_, saveMetadata_body _ _, ?_⟩
  · simp [saveMetadata, h1, h2]
  · rw [trainFromDb_success oracle now store rows h10 hcl]
    refine ⟨_, rfl, ?_⟩
    rw [hst]
    simp [saveMetadata, h1]

theorem f1Score_nonneg (y : List ℤ) (scores : List ℚ) (t : ℚ) :
    0 ≤ f1Score y scores t := by
  simp only [f1Score]
  split_ifs with h
  · exact le_refl 0
  · positivity

theorem foldl_scanStep_spec (y : List ℤ) (scores : List ℚ) :
    ∀ (ts : List ℚ) (acc : ℚ × ℚ),
      acc.2 ≤ (ts.foldl (scanStep y scores) acc).2 ∧
      (∀ t ∈ ts, f1Score y scores t ≤ (ts.foldl (scanStep y scores) acc).2) ∧
      (ts.foldl (scanStep y scores) acc = acc ∨
        ((ts.foldl (scanStep y scores) acc).1 ∈ ts ∧
          (ts.foldl (scanStep y scores) acc).2 =
            f1Score y scores (ts.foldl (scanStep y scores) acc).1)) := by
  intro ts
  induction ts with
  | nil => exact fun acc => ⟨le_refl _, by simp, Or.inl rfl⟩
  | cons t rest ih =>
      intro acc
      have hstep : acc.2 ≤ (scanStep y scores acc t).2 ∧
          f1Score y scores t ≤ (scanStep y scores acc t).2 ∧
          (scanStep y scores acc t = acc ∨
            scanStep y scores acc t = (t, f1Score y scores t)) := by
        unfold scanStep
        split_ifs with h
        · exact ⟨le_of_lt h, le_refl _, Or.inr rfl⟩
        · exact ⟨le_refl _, not_lt.mp h, Or.inl rfl⟩
      obtain ⟨ih1, ih2, ih3⟩ := ih (scanStep y scores acc t)
      rw [List.foldl_cons]
      refine ⟨le_trans hstep.1 ih1, ?_, ?_⟩
      · intro t' ht'
        rcases List.mem_cons.mp ht' with rfl | hmem
        · exact le_trans hstep.2.1 ih1
        · exact ih2 t' hmem
      · rcases ih3 with heq | ⟨hmem, heqf⟩
        · rw [heq]
          rcases hstep.2.2 with h' | h'
          · rw [h']
            exact Or.inl rfl
          · rw [h']
            exact Or.inr ⟨List.mem_cons_self t rest, rfl⟩
        · exact Or.inr ⟨List.mem_cons_of_mem t hmem, heqf⟩

theorem bestThresholdScan_spec (y : List ℤ) (scores : List ℚ) (ts : List ℚ)
    (hts : ts ≠ []) :
    (bestThresholdScan y scores ts).1 ∈ ts ∧
      ∀ t ∈ ts, f1Score y scores t ≤
        f1Score y scores (bestThresholdScan y scores ts).1 := by
  obtain ⟨_, h2, h3⟩ := foldl_scanStep_spec y scores ts (0.6, -1)
  obtain ⟨t0, ht0⟩ := List.exists_mem_of_ne_nil ts hts
  have hpos : (0 : ℚ) ≤ (ts.foldl (scanStep y scores) (0.6, -1)).2 :=
    le_trans (f1Score_nonneg y scores t0) (h2 t0 ht0)
  rcases h3 with heq | ⟨hmem, heqf⟩
  · rw [heq] at hpos
    norm_num at hpos
  · unfold bestThresholdScan
    refine ⟨hmem, fun t ht => ?_⟩
    rw [← heqf]
    exact h2 t ht

/-! ## C6: recommended threshold maximizes F1, clamped to at least 0.6 -/

/-- C6. On every successful training run (enough samples, two classes, a
nonempty ROC threshold list), the persisted `recommended_threshold` equals
`max t* 0.6` for a ROC-curve threshold `t*` that maximizes F1 of the
calibrated scores against the training labels; in particular the persisted
value is always at least 0.6. -/
theorem C6_recommended_threshold (oracle : FitOracle) (now : String)
    (store : ModelStore) (rows : List Enrollment)
    (h10 : 10 ≤ labeledCount rows) (hcl : 2 ≤ nunique (classValues rows))
    (hts : oracle.roc_thresholds ≠ []) :
    ∃ st out doc, trainFromDbStore oracle now store rows = (st, .ok out) ∧
      st.metadata = some doc ∧ out.metadata = doc ∧
      (0.6 : ℚ) ≤ doc.body.recommended_threshold ∧
      ∃ tstar ∈ oracle.roc_thresholds,
        doc.body.recommended_threshold = max tstar 0.6 ∧
        ∀ t ∈ oracle.roc_thresholds,
          f1Score (classValues rows) oracle.y_scores t ≤
            f1Score (classValues rows) oracle.y_scores tstar := by
  rw [trainFromDb_success oracle now store rows h10 hcl]
  refine ⟨_, _, _, rfl, rfl, rfl, ?_, ?_⟩
  · rw [saveMetadata_body]
    exact le_max_right _ _
  · obtain ⟨hmem, hmax⟩ := bestThresholdScan_spec (classValues rows)
      oracle.y_scores oracle.roc_thresholds hts
    refine ⟨(bestThresholdScan (classValues rows) oracle.y_scores
        oracle.roc_thresholds).1, hmem, ?_, hmax⟩
    rw [saveMetadata_body]
    rfl

/-! ## C8: which coefficients training records (corrected) -/

/-- C8 (amended). The reference coefficients and intercept recorded in the
training metadata (the ones the predictor later reads for explanations)
are the averages across the five cross-validation folds' fitted
classifiers — not the full-dataset fit; the full-dataset uncalibrated fit
contributes only the scaler statistics (and permutation importance). -/
theorem C8_coefficients_are_fold_averages (oracle : FitOracle) (now : String)
    (store : ModelStore) (rows : List Enrollment)
    (h10 : 10 ≤ labeledCount rows) (hcl : 2 ≤ nunique (classValues rows)) :
    ∃ st out doc, trainFromDbStore oracle now store rows = (st, .ok out) ∧
      st.metadata = some doc ∧
      doc.body.coefficients = FEATURES.zip (foldCoefMean oracle.cv_fold_coefs) ∧
      doc.body.intercept = listMean oracle.cv_fold_intercepts ∧
      doc.body.scaler_mean = oracle.full_fit.mean ∧
      doc.body.scaler_scale = oracle.full_fit.scale := by
  rw [trainFromDb_success oracle now store rows h10 hcl]
  refine ⟨_, _, _, rfl, rfl, ?_, ?_, ?_, ?_⟩ <;>
    rw [saveMetadata_body] <;> rfl

/-- C8, as the specification states it, is false: a concrete training run
whose fold-averaged coefficients `[2, 2, 2]` differ from the full-dataset
fit coefficients `[1, 1, 1]` records the averages, not the full-fit
values. -/
theorem C8_counterexample :
    ¬ recordsFullFitCoefs oracle8 "2024-01-01T00:00:00Z" store0 rows0 := by
  unfold recordsFullFitCoefs
  rw [trainFromDb_success oracle8 "2024-01-01T00:00:00Z" store0 rows0
    (by decide) (by decide)]
  simp only [store0, saveMetadata, Option.map_some']
  norm_num [trainNewBody, foldCoefMean, listMean, FEATURES, oracle8, oracle0,
    List.range_succ]

theorem BOUNDS_eq (name : String) : BOUNDS name = (0, 100) := by
  unfold BOUNDS
  split <;> rfl

theorem validateRange_ok_or_error (name : String) (v : Option ℚ) :
    (∃ q, v = some q ∧ inBounds q ∧ validateRange name v = .ok q) ∨
      ((¬ ∃ q ∈ v, inBounds q) ∧ ∃ msg, validateRange name v = .error msg) := by
  rcases v with _ | q
  · exact Or.inr ⟨by simp, _, rfl⟩
  · by_cases hb : inBounds q
    · exact Or.inl ⟨q, rfl, hb, validateRange_ok name q (by simpa [BOUNDS_eq] using hb)⟩
    · refine Or.inr ⟨by simpa using hb,
        name ++ " must be between 0 and 100, received " ++ toString q, ?_⟩
      have hb' : ¬ ((BOUNDS name).1 ≤ q ∧ q ≤ (BOUNDS name).2) := by
        simpa [BOUNDS_eq, inBounds] using hb
      simp [validateRange, hb']

theorem processBatchItem_invalid (item : BatchItem) (h : ¬ validItem item) :
    ∃ e, processBatchItem item = .error e ∧
      ((∃ msg, e = .invalidBatchItem item msg) ∨
        (∃ msg, e = .invalidInput msg ∧
          ∃ fe ∈ item.final_exam_score, ¬ inBounds fe)) := by
  rcases validateRange_ok_or_error "attendance" item.attendance with
    ⟨a, ha, hba, hva⟩ | ⟨hna, msg, hva⟩
  · rcases validateRange_ok_or_error "marks" item.marks with
      ⟨m, hm, hbm, hvm⟩ | ⟨hnm, msg, hvm⟩
    · rcases validateRange_ok_or_error "internal_score" item.internal_score with
        ⟨i, hi, hbi, hvi⟩ | ⟨hni, msg, hvi⟩
      · -- all required features valid, so the final exam score must be invalid
        have hfin : ∃ fe ∈ item.final_exam_score, ¬ inBounds fe := by
          by_contra hc
          push_neg at hc
          exact h ⟨⟨a, by rw [ha]; rfl, hba⟩, ⟨m, by rw [hm]; rfl, hbm⟩,
            ⟨i, by rw [hi]; rfl, hbi⟩, hc⟩
        obtain ⟨fe, hfe, hbfe⟩ := hfin
        have hfe' : item.final_exam_score = some fe := hfe
        have hva' : validateRange "attendance" (some a) = .ok a := by
          rw [← ha]
          exact hva
        have hvm' : validateRange "marks" (some m) = .ok m := by
          rw [← hm]
          exact hvm
        have hvi' : validateRange "internal_score" (some i) = .ok i := by
          rw [← hi]
          exact hvi
        have hvf : validateRange "final_exam_score" (some fe) =
            .error ("final_exam_score must be between 0 and 100, received " ++
              toString fe) := by
          have hb' : ¬ ((BOUNDS "final_exam_score").1 ≤ fe ∧
              fe ≤ (BOUNDS "final_exam_score").2) := by
            simpa [BOUNDS_eq, inBounds] using hbfe
          simp [validateRange, hb']
        refine ⟨.invalidInput
          ("final_exam_score must be between 0 and 100, received " ++ toString fe),
          ?_, Or.inr ⟨_, rfl, fe, hfe, hbfe⟩⟩
        simp only [processBatchItem, ha, hm, hi, hfe', hva', hvm', hvi', hvf]
        rfl
      · have hva' : validateRange "attendance" (some a) = .ok a := by
          rw [← ha]
          exact hva
        have hvm' : validateRange "marks" (some m) = .ok m := by
          rw [← hm]
          exact hvm
        refine ⟨.invalidBatchItem item ("Invalid batch item: " ++ msg),
          ?_, Or.inl ⟨_, rfl⟩⟩
        simp only [processBatchItem, ha, hm, hva', hvm', hvi]
        rfl
    · have hva' : validateRange "attendance" (some a) = .ok a := by
        rw [← ha]
        exact hva
      refine ⟨.invalidBatchItem item ("Invalid batch item: " ++ msg),
        ?_, Or.inl ⟨_, rfl⟩⟩
      simp only [processBatchItem, ha, hva', hvm]
      rfl
  · refine ⟨.invalidBatchItem item ("Invalid batch item: " ++ msg),
      ?_, Or.inl ⟨_, rfl⟩⟩
    simp only [processBatchItem, hva]
    rfl

theorem validateBatch_error (data : List BatchItem)
    (h : ∃ item ∈ data, ¬ validItem item) :
    ∃ e, validateBatch data = .error e ∧
      ((∃ item msg, item ∈ data ∧ ¬ validItem item ∧
          e = .invalidBatchItem item msg) ∨
        (∃ msg item, item ∈ data ∧ ¬ validItem item ∧
          (∃ fe ∈ item.final_exam_score, ¬ inBounds fe) ∧
          e = .invalidInput msg)) := by
  induction data with
  | nil =>
      rcases h with ⟨item, hm, _⟩
      cases hm
  | cons item rest ih =>
      by_cases hv : validItem item
      · have hrest : ∃ i ∈ rest, ¬ validItem i := by
          rcases h with ⟨i, hi, hni⟩
          rcases List.mem_cons.mp hi with rfl | hmem
          · exact absurd hv hni
          · exact ⟨i, hmem, hni⟩
        obtain ⟨f, hp⟩ := processBatchItem_ok item hv
        obtain ⟨e, he, hclass⟩ := ih hrest
        refine ⟨e, ?_, ?_⟩
        · simp only [validateBatch, hp, he]
          rfl
        · rcases hclass with ⟨it, msg, hm, hni, heq⟩ | ⟨msg, it, hm, hni, hfin, heq⟩
          · exact Or.inl ⟨it, msg, List.mem_cons_of_mem _ hm, hni, heq⟩
          · exact Or.inr ⟨msg, it, List.mem_cons_of_mem _ hm, hni, hfin, heq⟩
      · obtain ⟨e, he, hclass⟩ := processBatchItem_invalid item hv
        refine ⟨e, ?_, ?_⟩
        · simp only [validateBatch, he]
          rfl
        · rcases hclass with ⟨msg, heq⟩ | ⟨msg, heq, hfin⟩
          · exact Or.inl ⟨item, msg, List.mem_cons_self _ _, hv, heq⟩
          · exact Or.inr ⟨msg, item, List.mem_cons_self _ _, hv, hfin, heq⟩

/-! ## C7: batch fail-fast (corrected) -/

/-- C7 (amended). A batch containing an invalid item always fails as a
whole: no partial results, and the error is computed by validation alone —
it is the same for every loaded predictor, so no model inference happens.
When the offending defect is in a required feature (attendance, marks,
internal score) the error carries the offending item; when the only defect
is an out-of-range `final_exam_score`, the error is the plain
`InvalidInput` naming the field, not the item — this check sits outside the
wrapping `try` block in the source. -/
theorem C7_batch_fail_fast (P : Predictor) (data : List BatchItem)
    (h : ∃ item ∈ data, ¬ validItem item) :
    ∃ e, P.predictBatch data = .error e ∧
      (∀ P' : Predictor, P'.predictBatch data = .error e) ∧
      ((∃ item msg, item ∈ data ∧ ¬ validItem item ∧
          e = .invalidBatchItem item msg) ∨
        (∃ msg item, item ∈ data ∧ ¬ validItem item ∧
          (∃ fe ∈ item.final_exam_score, ¬ inBounds fe) ∧
          e = .invalidInput msg)) := by
  obtain ⟨e, he, hclass⟩ := validateBatch_error data h
  refine ⟨e, ?_, ?_, hclass⟩
  · simp only [Predictor.predictBatch, he]
    rfl
  · intro P'
    simp only [Predictor.predictBatch, he]
    rfl

/-- C7, as the specification states it, is false: the batch `data7`
contains an invalid item (its `final_exam_score` is 150), yet the call does
not fail with an error identifying the offending item — it raises the
plain field-level `InvalidInput` instead. -/
theorem C7_counterexample :
    (∃ item ∈ data7, ¬ validItem item) ∧
      ¬ batchIdentifiesOffender P0 data7 := by
  refine ⟨by decide, ?_⟩
  rintro ⟨item, msg, hmem, hinv, heq⟩
  have hvb : P0.predictBatch data7 =
      .error (.invalidInput
        ("final_exam_score must be between 0 and 100, received " ++
          toString (150 : ℚ))) := rfl
  rw [hvb] at heq
  simp at heq

/-! ## Witnesses: each hypothesis-bearing claim theorem applied to a
concrete instance -/

theorem C1_witness :
    (∃ r, (mkPredictor model0 md0 .unset).predict x0 = .ok r ∧
      0 ≤ r.probability ∧ r.probability ≤ 1 ∧
      r.threshold_used = resolveThreshold .unset md0 ∧
      (r.predicted_result = 1 ↔
        (resolveThreshold .unset md0 : ℝ) ≤ r.probability)) ∧
    (∃ rs, (mkPredictor model0 md0 .unset).predictBatch data1 = .ok rs ∧
      ∀ r ∈ rs, 0 ≤ r.probability ∧ r.probability ≤ 1 ∧
        r.threshold_used = resolveThreshold .unset md0 ∧
        (r.predicted_result = 1 ↔
          (resolveThreshold .unset md0 : ℝ) ≤ r.probability)) :=
  C1_probability_and_label model0 md0 .unset x0 data1 (by decide) (by decide)

theorem C3_witness :
    ∃ r, P0.predict x0 = .ok r ∧
      (∀ s ∈ r.feedback,
        s.delta_value = min (maxIncrease s.feature) (100 - s.current_value) ∧
        0 < s.delta_value ∧ s.current_value + s.delta_value ≤ 100 ∧
        0 ≤ s.estimated_probability_gain ∧
        s.estimated_probability_gain ≤ 1 - r.probability) ∧
      (∀ p ∈ FEATURES.enum,
        min (maxIncrease p.2)
          (100 - (rawVector ⟨x0.attendance, x0.marks, x0.internal_score⟩).getD p.1 0) ≤ 0 →
        ∀ s ∈ r.feedback, s.feature ≠ p.2) ∧
      List.Sorted suggLE r.feedback :=
  C3_feedback_suggestions P0 x0 (by decide)

theorem C4_witness :
    (saveMetadata (some exDoc) newDoc0).user_threshold =
        some (.num (11/20)) ∧
      (saveMetadata (some exDoc) newDoc0).body = newDoc0.body ∧
      ∃ doc, (trainFromDbStore oracle0 "2024-02-02T00:00:00Z" storeWithUser
          rows0).1.metadata = some doc ∧
        doc.user_threshold = some (.num (11/20)) :=
  C4_user_threshold_carried exDoc newDoc0 (.num (11/20)) oracle0
    "2024-02-02T00:00:00Z" storeWithUser rows0 rfl rfl rfl (by decide) (by decide)

theorem C5_witness :
    trainFromDbStore oracle0 "2024-02-02T00:00:00Z" store0 rowsFew =
      (store0, .error (if labeledCount rowsFew < 10
        then .insufficientData (labeledCount rowsFew) else .singleClass)) ∧
    trainFromDbStore oracle0 "2024-02-02T00:00:00Z" store0 rowsOneClass =
      (store0, .error (if labeledCount rowsOneClass < 10
        then .insufficientData (labeledCount rowsOneClass) else .singleClass)) :=
  ⟨C5_training_preconditions oracle0 "2024-02-02T00:00:00Z" store0 rowsFew
      (by decide) (Or.inl (by decide)),
    C5_training_preconditions oracle0 "2024-02-02T00:00:00Z" store0 rowsOneClass
      (by decide) (Or.inr ⟨by decide, by decide⟩)⟩

theorem C6_witness :
    ∃ st out doc,
      trainFromDbStore oracle0 "2024-02-02T00:00:00Z" store0 rows0 =
        (st, .ok out) ∧
      st.metadata = some doc ∧ out.metadata = doc ∧
      (0.6 : ℚ) ≤ doc.body.recommended_threshold ∧
      ∃ tstar ∈ oracle0.roc_thresholds,
        doc.body.recommended_threshold = max tstar 0.6 ∧
        ∀ t ∈ oracle0.roc_thresholds,
          f1Score (classValues rows0) oracle0.y_scores t ≤
            f1Score (classValues rows0) oracle0.y_scores tstar :=
  C6_recommended_threshold oracle0 "2024-02-02T00:00:00Z" store0 rows0
    (by decide) (by decide) (by decide)

theorem C7_witness :
    ∃ e, P0.predictBatch data7b = .error e ∧
      (∀ P' : Predictor, P'.predictBatch data7b = .error e) ∧
      ((∃ item msg, item ∈ data7b ∧ ¬ validItem item ∧
          e = .invalidBatchItem item msg) ∨
        (∃ msg item, item ∈ data7b ∧ ¬ validItem item ∧
          (∃ fe ∈ item.final_exam_score, ¬ inBounds fe) ∧
          e = .invalidInput msg)) :=
  C7_batch_fail_fast P0 data7b (by decide)

theorem C8_witness :
    ∃ st out doc,
      trainFromDbStore oracle8 "2024-02-02T00:00:00Z" store0 rows0 =
        (st, .ok out) ∧
      st.metadata = some doc ∧
      doc.body.coefficients = FEATURES.zip (foldCoefMean oracle8.cv_fold_coefs) ∧
      doc.body.intercept = listMean oracle8.cv_fold_intercepts ∧
      doc.body.scaler_mean = oracle8.full_fit.mean ∧
      doc.body.scaler_scale = oracle8.full_fit.scale :=
  C8_coefficients_are_fold_averages oracle8 "2024-02-02T00:00:00Z" store0 rows0
    (by decide) (by decide)

theorem C9_witness :
    ∃ r, P0.predict x0 = .ok r ∧
      (r.suspicious_input = true ↔ suspicionRuleFires x0) ∧
      r.suspicious_reasons =
        collectSuspicionMarkers ⟨x0.attendance, x0.marks, x0.internal_score⟩
          x0.final_exam_score ∧
      r.probability =
        P0.model.predictProba
          (rawVector ⟨x0.attendance, x0.marks, x0.internal_score⟩) ∧
      (r.predicted_result = 1 ↔ (P0.threshold : ℝ) ≤ r.probability) :=
  C9_suspicion_rules P0 x0 (by decide)

theorem C10_witness :
    (∀ s ∈ effectiveScaleList md0, s ≠ 0) ∧
      feedbackDivisor md0 0 ≠ 0 ∧
      ∃ r, P0.predictNp x0 = .ok r :=
  C10_no_zero_divisors md0 0 P0 x0 (by decide) (by decide)

end StudentPerf
